import Mathlib

/-!
Verification of the prediction-aggregation and digest-rendering engine of the
roataway telegram-bot repository.

The Python source (`main.py`, `structures.py`, `constants.py`) is shallowly
embedded below: dictionaries become functions into `Option`, dataclasses become
structures, code that can raise an exception (`KeyError`, `IndexError`) returns
`Option`, and JSON numbers become `Int` (coordinates become `Float`; they are
only copied, never computed with).
-/

/-! ## Constants (`constants.py`) -/

def ICON_BUS : String := "🚌"

def MSG_UNSUPPORTED_ROUTE : String := "Cu regret, nu am informații pentru această rută."

/-! ## Data model (`structures.py`) -/

/-- `Route` dataclass of `structures.py`. -/
structure Route where
  name : String
  segments : List String
  cutoff_station_id : Option Int
  station_sequence : List Int
  transports : Option (List String) := none
deriving DecidableEq

/-- `Transport` dataclass of `structures.py`; fields default to `None`
(`speed` defaults to `0`). -/
structure Transport where
  latitude : Option Float := none
  longitude : Option Float := none
  direction : Option Float := none
  board_name : Option String := none
  rtu_id : Option String := none
  speed : Int := 0
  route : Option String := none
  last_station_order : Option Int := none

/-- The payload of a transport/position MQTT message: the dict with keys
`rtu_id, board, route, lat, lon, speed, dir` and the optional `last_station`
(`none` models the key being absent). -/
structure TelemetryData where
  rtu_id : String
  board : String
  route : String
  lat : Float
  lon : Float
  speed : Int
  dir : Float
  last_station : Option Int := none

/-! ## State of the `Infobot` object (`main.py`, `__init__`) -/

/-- The mutable dictionaries of the `Infobot` object.  `predictions` maps a
route name to its per-station bucket (`self.predictions[route][station_id]`),
`transports` maps a board name to its `Transport` record, `routes` maps a route
name to its `Route`, and `all_stations` maps a station id to its name. -/
structure BotState where
  predictions : String → Option (Int → Option (List Int))
  transports : String → Option Transport
  routes : String → Option Route
  all_stations : Int → Option String

/-- A fresh `Infobot` state: all four dictionaries empty. -/
def emptyBot : BotState :=
  { predictions := fun _ => none
    transports := fun _ => none
    routes := fun _ => none
    all_stations := fun _ => none }

/-! ## `Infobot.refresh_transport` (`main.py` lines 62-88) -/

/-- `refresh_transport`: fetch the `Transport` for `data["board"]`, creating it
(with `board_name` and `rtu_id` set) on `KeyError`; then overwrite
`latitude`, `longitude`, `speed`, `direction` and `route`; copy
`data["last_station"]` only when present (`except KeyError: pass`). -/
def refresh_transport (transports : String → Option Transport)
    (data : TelemetryData) : String → Option Transport :=
  let transport : Transport :=
    match transports data.board with
    | some t => t
    | none => { board_name := some data.board, rtu_id := some data.rtu_id }
  let transport : Transport :=
    { transport with
      latitude := some data.lat
      longitude := some data.lon
      speed := data.speed
      direction := some data.dir
      route := some data.route
      last_station_order :=
        match data.last_station with
        | some v => some v
        | none => transport.last_station_order }
  fun b => if b = data.board then some transport else transports b

/-! ## `Infobot.load_route` (`main.py` lines 90-120) -/

/-- One data row of a route CSV file (the header row is already skipped);
`*rest` columns are ignored by the loop and omitted here. -/
structure RouteRow where
  station_id : Int
  station_order : Int
  station_name : String
  segment : String
deriving DecidableEq

/-- The local variables of the `load_route` loop, together with the global
`self.all_stations` dictionary which the loop mutates. -/
structure LoadState where
  segments : List String
  last_segment : String
  cutoff_station_id : Option Int
  station_sequence : List Int
  all_stations : Int → Option String

/-- The body of the `load_route` `for` loop, written per-field:
`if last_segment and last_segment != segment` records the cutoff, the `else`
branch appends an unseen segment label; every row appends its station id to
the sequence and writes the global station-name entry. -/
def load_route_step (st : LoadState) (row : RouteRow) : LoadState :=
  { segments :=
      if st.last_segment ≠ "" ∧ st.last_segment ≠ row.segment then st.segments
      else if row.segment ∈ st.segments then st.segments
      else st.segments ++ [row.segment]
    last_segment := row.segment
    cutoff_station_id :=
      if st.last_segment ≠ "" ∧ st.last_segment ≠ row.segment then some row.station_id
      else st.cutoff_station_id
    station_sequence := st.station_sequence ++ [row.station_id]
    all_stations := fun i =>
      if i = row.station_id then some row.station_name else st.all_stations i }

/-- `load_route`: fold the loop body over the data rows, starting from
`segments = []`, `last_segment = ""`, `cutoff_station_id = None`,
`station_sequence = []`; returns the built `Route` and the updated global
station table. -/
def load_route (all0 : Int → Option String) (route_name : String)
    (rows : List RouteRow) : Route × (Int → Option String) :=
  let fin := rows.foldl load_route_step
    { segments := [], last_segment := "", cutoff_station_id := none
      station_sequence := [], all_stations := all0 }
  ({ name := route_name, segments := fin.segments
     cutoff_station_id := fin.cutoff_station_id
     station_sequence := fin.station_sequence }, fin.all_stations)

/-! ## `Infobot.preload_structures` (`main.py` lines 122-132) -/

/-- One iteration of `preload_structures`: load the route file, store the
`Route` under its name and create its empty prediction bucket. -/
def preload_step (st : BotState) (entry : String × List RouteRow) : BotState :=
  let loaded := load_route st.all_stations entry.1 entry.2
  { st with
    routes := fun n => if n = entry.1 then some loaded.1 else st.routes n
    predictions := fun n => if n = entry.1 then some (fun _ => none) else st.predictions n
    all_stations := loaded.2 }

/-- `preload_structures` over the directory listing, starting from the fresh
`Infobot` state. -/
def preload_structures (entries : List (String × List RouteRow)) : BotState :=
  entries.foldl preload_step emptyBot

/-! ## `Infobot.form_digest_markdown` (`main.py` lines 165-213, full-route
path, i.e. `station_id=None`) -/

/-- `last_prognosis is not None and last_prognosis != 0 and
current_prognosis < last_prognosis` (lines 202-206). -/
def betweenCond (last_prognosis : Option Int) (current : Int) : Bool :=
  match last_prognosis with
  | some p => decide (p ≠ 0) && decide (current < p)
  | none => false

/-- The per-station body of the digest loop (lines 184-211): look the station
name up, read the ETA list with `self.predictions[route].get(station_id, [])`
(the bucket itself may be missing: `KeyError`, modelled as `none`), render the
no-data line, or apply the bus-position heuristic; returns the appended text
and the new `last_prognosis`. -/
def station_body (all_stations : Int → Option String)
    (bucket : Option (Int → Option (List Int)))
    (last_prognosis : Option Int) (sid : Int) : Option (String × Option Int) :=
  match all_stations sid with
  | none => none
  | some station_name =>
    match bucket with
    | none => none
    | some b =>
      match (b sid).getD [] with
      | [] => some (station_name ++ ": 🚫\n", last_prognosis)
      | e :: es =>
        let string_etas := String.intercalate ", " ((e :: es).map toString)
        if e = 0 ∧ last_prognosis ≠ some 0 then
          some (ICON_BUS ++ " " ++ station_name ++ ": " ++ string_etas ++ "\n", some e)
        else if betweenCond last_prognosis e then
          some (ICON_BUS ++ " \n" ++ station_name ++ ": " ++ string_etas ++ "\n", some e)
        else
          some (station_name ++ ": " ++ string_etas ++ "\n", some e)

/-- One full iteration of the digest loop: the cutoff header (lines 179-182,
`"\n*%s*\n" % segments[1]`, emitted before the station body) followed by
`station_body`. -/
def station_chunk (r : Route) (all_stations : Int → Option String)
    (bucket : Option (Int → Option (List Int)))
    (last_prognosis : Option Int) (sid : Int) : Option (String × Option Int) :=
  if r.cutoff_station_id = some sid then
    match r.segments[1]? with
    | none => none
    | some s1 =>
      (station_body all_stations bucket last_prognosis sid).map
        (fun pl => ("\n*" ++ s1 ++ "*\n" ++ pl.1, pl.2))
  else station_body all_stations bucket last_prognosis sid

/-- The digest `for` loop: thread `result` and `last_prognosis` through the
station sequence; a raised exception (`none`) aborts the whole render. -/
def digest_loop (r : Route) (all_stations : Int → Option String)
    (bucket : Option (Int → Option (List Int))) :
    List Int → String → Option Int → Option (String × Option Int)
  | [], acc, last_prognosis => some (acc, last_prognosis)
  | sid :: rest, acc, last_prognosis =>
    match station_chunk r all_stations bucket last_prognosis sid with
    | none => none
    | some pl => digest_loop r all_stations bucket rest (acc ++ pl.1) pl.2

/-- `form_digest_markdown(route)` (full-route path): look the route up
(`KeyError` on an unknown name), start from `"*%s*\n" % segments[0]` and run
the loop. -/
def form_digest_markdown (st : BotState) (route : String) : Option String :=
  match st.routes route with
  | none => none
  | some r =>
    match r.segments[0]? with
    | none => none
    | some s0 =>
      (digest_loop r st.all_stations (st.predictions route)
        r.station_sequence ("*" ++ s0 ++ "*\n") none).map Prod.fst

/-- The prediction-store read used by the renderer (line 185):
`self.predictions[route].get(station_id, [])`; `none` when the route bucket
itself is missing. -/
def predictions_get (st : BotState) (route : String) (sid : Int) : Option (List Int) :=
  (st.predictions route).map (fun b => (b sid).getD [])

/-! ## `Infobot.on_mqtt` (`main.py` lines 398-432) -/

/-- A decoded MQTT payload: either a station/prediction dict
(`station_id` plus the `eta` mapping of route name to `[eta, board]` pairs,
in key order) or a transport/position dict. -/
inductive MqttData where
  | station (station_id : Int) (eta : List (String × List (Int × String)))
  | transport (d : TelemetryData)

/-- An inbound MQTT message; `payload = none` models a payload on which
`json.loads` raises `ValueError`. -/
structure MqttMsg where
  topic : String
  payload : Option MqttData

/-- Substring test on character lists, modelling Python's `in` on strings. -/
def hasSub (pat : List Char) : List Char → Bool
  | [] => pat.isEmpty
  | c :: cs => pat.isPrefixOf (c :: cs) || hasSub pat cs

/-- `pat in s` for Python strings. -/
def strContains (s pat : String) : Bool := hasSub pat.data s.data

/-- `sorted(list(set(xs)))`: the ascending-sorted listing of the distinct
values of `xs` (any comparison sort of the deduplicated list). -/
def sorted_set (xs : List Int) : List Int :=
  List.insertionSort (· ≤ ·) xs.dedup

/-- `on_mqtt`: drop undecodable payloads; on a topic containing `"station"`,
take the first route of the `eta` dict (`IndexError`, i.e. `none`, when the
dict is empty; `KeyError` when the payload has the wrong shape), create the
route bucket if missing, and replace that station's list with the
sorted-deduplicated ETAs; on a topic containing `"transport"`, call
`refresh_transport`; otherwise ignore the message. -/
def on_mqtt (st : BotState) (msg : MqttMsg) : Option BotState :=
  match msg.payload with
  | none => some st
  | some data =>
    if strContains msg.topic "station" then
      match data with
      | MqttData.station station_id eta =>
        match eta with
        | [] => none
        | (route, pairs) :: _ =>
          let bucket := (st.predictions route).getD (fun _ => none)
          let predictions := pairs.map Prod.fst
          let predictions := sorted_set predictions
          let bucket2 : Int → Option (List Int) :=
            fun s => if s = station_id then some predictions else bucket s
          some { st with predictions := fun rr =>
            if rr = route then some bucket2 else st.predictions rr }
      | MqttData.transport _ => none
    else if strContains msg.topic "transport" then
      match data with
      | MqttData.transport d =>
        some { st with transports := refresh_transport st.transports d }
      | MqttData.station _ _ => none
    else some st

/-! ## `Infobot.on_bot_prognosis` (`main.py` lines 238-270, reply selection) -/

/-- The reply `on_bot_prognosis` produces: the route-selection keyboard when no
parameter was given, the `MSG_UNSUPPORTED_ROUTE` text for an unknown route, or
the rendered digest. -/
inductive BotReply where
  | chooseRoute
  | unsupportedRoute (text : String)
  | digest (text : String)
deriving DecidableEq

/-- `on_bot_prognosis` for a request carrying parameter `params`: guard
`route not in self.routes` before rendering.  `none` models an unhandled
exception inside the render. -/
def on_bot_prognosis (st : BotState) (params : Option String) : Option BotReply :=
  match params with
  | none => some BotReply.chooseRoute
  | some route =>
    match st.routes route with
    | none => some (BotReply.unsupportedRoute MSG_UNSUPPORTED_ROUTE)
    | some _ => (form_digest_markdown st route).map BotReply.digest

/-! ## Characterization helpers (spec side)

These do not come from the source; they restate pieces of the loops in a
decomposed form so that the claims can be written against them. -/

/-- The digest walk with the cutoff-header emission removed: only the
per-station bodies, threaded left to right.  Used to decompose a full render
around its single header emission. -/
def digest_plain (all_stations : Int → Option String)
    (bucket : Option (Int → Option (List Int))) :
    List Int → String → Option Int → Option (String × Option Int)
  | [], acc, last_prognosis => some (acc, last_prognosis)
  | sid :: rest, acc, last_prognosis =>
    match station_body all_stations bucket last_prognosis sid with
    | none => none
    | some pl => digest_plain all_stations bucket rest (acc ++ pl.1) pl.2

/-- The station id of the last segment-label changeover row: a row whose label
differs from the previous row's label, the previous label being non-empty
(`last` starts as `""`). -/
def lastChangeover : String → List RouteRow → Option Int
  | _, [] => none
  | last, row :: rest =>
    if last ≠ "" ∧ last ≠ row.segment then
      match lastChangeover row.segment rest with
      | some c => some c
      | none => some row.station_id
    else lastChangeover row.segment rest

/-- The segment labels of the rows that are not changeover rows, in order. -/
def nonChangeoverLabels : String → List RouteRow → List String
  | _, [] => []
  | last, row :: rest =>
    if last ≠ "" ∧ last ≠ row.segment then nonChangeoverLabels row.segment rest
    else row.segment :: nonChangeoverLabels row.segment rest

/-- First-occurrence deduplication against an initial seen set: each label is
kept only if not already accumulated. -/
def newLabels : List String → List String → List String
  | _, [] => []
  | seen, x :: xs =>
    if x ∈ seen then newLabels seen xs else x :: newLabels (seen ++ [x]) xs

/-! ## Concrete inputs used by the claims -/

/-- Two-station single-segment route for the marker examples. -/
def routeC2 : Route :=
  { name := "r", segments := ["Out"], cutoff_station_id := none, station_sequence := [1, 2] }

/-- Station names for stations 1 and 2. -/
def allstC2 : Int → Option String :=
  fun i => if i = 1 then some "S1" else if i = 2 then some "S2" else none

/-- ETAs `[0]` then `[0]`. -/
def bucketA : Int → Option (List Int) :=
  fun i => if i = 1 then some [0] else if i = 2 then some [0] else none

/-- ETAs `[0]` then `[2]`. -/
def bucketB : Int → Option (List Int) :=
  fun i => if i = 1 then some [0] else if i = 2 then some [2] else none

/-- Bot state holding `routeC2` with ETAs `[0]`, `[0]`. -/
def stateC2A : BotState :=
  { predictions := fun rr => if rr = "r" then some bucketA else none
    transports := fun _ => none
    routes := fun n => if n = "r" then some routeC2 else none
    all_stations := allstC2 }

/-- Bot state holding `routeC2` with ETAs `[0]`, `[2]`. -/
def stateC2B : BotState :=
  { stateC2A with predictions := fun rr => if rr = "r" then some bucketB else none }

/-- Two-station route whose second station is the cutoff. -/
def routeC3 : Route :=
  { name := "q", segments := ["A", "B"], cutoff_station_id := some 2, station_sequence := [1, 2] }

/-- ETAs `[5]` then `[2]`: the between-stations marker fires at the cutoff. -/
def bucketC3 : Int → Option (List Int) :=
  fun i => if i = 1 then some [5] else if i = 2 then some [2] else none

/-- Bot state holding `routeC3` with ETAs `[5]`, `[2]`. -/
def stateC3 : BotState :=
  { predictions := fun rr => if rr = "q" then some bucketC3 else none
    transports := fun _ => none
    routes := fun n => if n = "q" then some routeC3 else none
    all_stations := allstC2 }

/-- The digest the code produces for `stateC3`. -/
def digestC3 : String := "*A*\nS1: 5\n\n*B*\n🚌 \nS2: 2\n"

/-- Route rows with segment labels `A, B, B, C, C`: two rows of a third
segment after a second changeover. -/
def rows6 : List RouteRow :=
  [⟨1, 1, "S1", "A"⟩, ⟨2, 2, "S2", "B"⟩, ⟨3, 3, "S3", "B"⟩, ⟨4, 4, "S4", "C"⟩, ⟨5, 5, "S5", "C"⟩]

/-- A stored transport for board `"b"` whose telemetry unit id is `"OLD"`. -/
def trB : String → Option Transport :=
  fun b => if b = "b" then some { rtu_id := some "OLD", board_name := some "b" } else none

/-- Telemetry for board `"b"` carrying the new unit id `"NEW"`. -/
def dB : TelemetryData :=
  { rtu_id := "NEW", board := "b", route := "30", lat := 1.0, lon := 2.0, speed := 3, dir := 4.0,
    last_station := some 7 }

/-- A stored transport for board `"c"` with unit id `"R1"` and a remembered
last station order `7`. -/
def trC : String → Option Transport :=
  fun b =>
    if b = "c" then some { rtu_id := some "R1", board_name := some "c", last_station_order := some 7 }
    else none

/-- Telemetry for board `"c"` lacking `last_station` and carrying unit id `"R2"`. -/
def dC : TelemetryData :=
  { rtu_id := "R2", board := "c", route := "22", lat := 5.0, lon := 6.0, speed := 1, dir := 90.0,
    last_station := none }

/-- A catalog with one single-row route, for the station-name invariant. -/
def entries1 : List (String × List RouteRow) := [("r1", [⟨1, 1, "S1", "A"⟩])]

/-- MQTT message: station 10, route `"r"`, raw pairs `[(5,A),(5,B),(3,C)]`. -/
def msgC1 : MqttMsg :=
  { topic := "state/station/1"
    payload := some (MqttData.station 10 [("r", [(5, "A"), (5, "B"), (3, "C")])]) }

/-- MQTT message: station 10, route `"r"`, raw pairs `[(1,"x")]`. -/
def msgC1a : MqttMsg :=
  { topic := "state/station/1", payload := some (MqttData.station 10 [("r", [(1, "x")])]) }

/-- MQTT message: station 10, route `"r"`, raw pairs `[(9,"y")]`. -/
def msgC1b : MqttMsg :=
  { topic := "state/station/1", payload := some (MqttData.station 10 [("r", [(9, "y")])]) }

/-! # Claims -/

/-- C4: for every route name absent from the catalog, the prognosis handler
returns the typed unsupported-route reply — not a digest and not an unhandled
failure. -/
theorem claim4_unknown_route_not_found (st : BotState) (route : String)
    (h : st.routes route = none) :
    on_bot_prognosis st (some route)
      = some (BotReply.unsupportedRoute MSG_UNSUPPORTED_ROUTE) := by
  simp [on_bot_prognosis, h]

theorem claim4_unknown_route_not_found_witness :
    on_bot_prognosis emptyBot (some "99")
      = some (BotReply.unsupportedRoute MSG_UNSUPPORTED_ROUTE) :=
  claim4_unknown_route_not_found emptyBot "99" rfl

/-- C7: a feed message whose payload fails to decode is dropped with no state
change and no error surfaced; a message whose topic matches neither the
station family nor the transport family is ignored with no state change. -/
theorem claim7_bad_payload_and_unknown_topic :
    (∀ (st : BotState) (topic : String),
      on_mqtt st { topic := topic, payload := none } = some st)
    ∧ (∀ (st : BotState) (topic : String) (d : MqttData),
        strContains topic "station" = false → strContains topic "transport" = false →
        on_mqtt st { topic := topic, payload := some d } = some st) := by
  constructor
  · intro st topic; rfl
  · intro st topic d h1 h2; simp [on_mqtt, h1, h2]

theorem claim7_bad_payload_and_unknown_topic_witness :
    on_mqtt emptyBot { topic := "foo", payload := none } = some emptyBot
    ∧ on_mqtt emptyBot { topic := "foo", payload := some (MqttData.station 1 []) }
        = some emptyBot :=
  ⟨claim7_bad_payload_and_unknown_topic.1 emptyBot "foo",
   claim7_bad_payload_and_unknown_topic.2 emptyBot "foo" (MqttData.station 1 []) rfl rfl⟩

/-- C5 counterexample: updating the already-known board `"b"` with telemetry
carrying the unit id `"NEW"` leaves the stored `rtu_id` at `"OLD"` — the
vehicle unit id is not overwritten, contrary to the claim. -/
theorem claim5_counterexample :
    ((refresh_transport trB dB) "b").map Transport.rtu_id = some (some "OLD")
    ∧ ((refresh_transport trB dB) "b").map Transport.rtu_id
        ≠ some (some dB.rtu_id) := by
  exact ⟨by decide, by decide⟩

/-- C5 (amended): for every vehicle-position update on an already-known board,
the route, latitude, longitude, speed and heading fields are overwritten with
the incoming values (route in particular on every update), while the vehicle
unit id (`rtu_id`) and the board name keep their stored values — they are set
only when the record is created. -/
theorem claim5_amended_overwrite_except_rtu (tr : String → Option Transport)
    (d : TelemetryData) (t0 : Transport) (h : tr d.board = some t0) :
    (refresh_transport tr d) d.board = some
      { latitude := some d.lat, longitude := some d.lon, direction := some d.dir,
        board_name := t0.board_name, rtu_id := t0.rtu_id, speed := d.speed,
        route := some d.route,
        last_station_order :=
          match d.last_station with
          | some v => some v
          | none => t0.last_station_order } := by
  simp [refresh_transport, h]

theorem claim5_amended_overwrite_except_rtu_witness :
    (refresh_transport trB dB) "b" = some
      { latitude := some dB.lat, longitude := some dB.lon, direction := some dB.dir,
        board_name := some "b", rtu_id := some "OLD", speed := dB.speed,
        route := some dB.route, last_station_order := some 7 } :=
  claim5_amended_overwrite_except_rtu trB dB
    { rtu_id := some "OLD", board_name := some "b" } rfl

/-- C9 counterexample: updating board `"c"` with telemetry lacking the
last-station field preserves the stored last-station value `7`, but the stored
field `rtu_id` is not updated to the incoming `"R2"` — so not every other
stored field is updated, contrary to the claim. -/
theorem claim9_counterexample :
    ((refresh_transport trC dC) "c").map Transport.last_station_order = some (some 7)
    ∧ ((refresh_transport trC dC) "c").map Transport.rtu_id = some (some "R1")
    ∧ ((refresh_transport trC dC) "c").map Transport.rtu_id ≠ some (some dC.rtu_id) := by
  exact ⟨by decide, by decide, by decide⟩

/-- C9 (amended): an update lacking the optional last-station field leaves a
previously stored last-station value unchanged while the fields assigned on
every update (latitude, longitude, speed, heading, route) are still
overwritten; the unit id and board name are set only at creation; and the very
first sighting of a vehicle without the field leaves last-station undefined
(`none`), not zero. -/
theorem claim9_amended_last_station_frame :
    (∀ (tr : String → Option Transport) (d : TelemetryData) (t0 : Transport),
      d.last_station = none → tr d.board = some t0 →
      (refresh_transport tr d) d.board = some
        { latitude := some d.lat, longitude := some d.lon, direction := some d.dir,
          board_name := t0.board_name, rtu_id := t0.rtu_id, speed := d.speed,
          route := some d.route, last_station_order := t0.last_station_order })
    ∧ (∀ (tr : String → Option Transport) (d : TelemetryData),
      d.last_station = none → tr d.board = none →
      (refresh_transport tr d) d.board = some
        { latitude := some d.lat, longitude := some d.lon, direction := some d.dir,
          board_name := some d.board, rtu_id := some d.rtu_id, speed := d.speed,
          route := some d.route, last_station_order := none }) := by
  constructor
  · intro tr d t0 hls h; simp [refresh_transport, h, hls]
  · intro tr d hls h; simp [refresh_transport, h, hls]

theorem claim9_amended_last_station_frame_witness :
    (refresh_transport trC dC) "c" = some
      { latitude := some dC.lat, longitude := some dC.lon, direction := some dC.dir,
        board_name := some "c", rtu_id := some "R1", speed := dC.speed,
        route := some dC.route, last_station_order := some 7 }
    ∧ (refresh_transport (fun _ => none) dC) "c" = some
      { latitude := some dC.lat, longitude := some dC.lon, direction := some dC.dir,
        board_name := some "c", rtu_id := some "R2", speed := dC.speed,
        route := some dC.route, last_station_order := none } :=
  ⟨claim9_amended_last_station_frame.1 trC dC
      { rtu_id := some "R1", board_name := some "c", last_station_order := some 7 } rfl rfl,
   claim9_amended_last_station_frame.2 (fun _ => none) dC rfl rfl⟩

/-- C8: a station whose prediction entry is absent from the route bucket
renders the same no-data line as a station whose stored list is present but
empty, and in both cases the heuristic memory `last_prognosis` is left
unchanged. -/
theorem claim8_absent_vs_empty (r : Route) (allst : Int → Option String)
    (b1 b2 : Int → Option (List Int)) (last : Option Int) (sid : Int) (name : String)
    (hn : allst sid = some name) (h1 : b1 sid = none) (h2 : b2 sid = some []) :
    station_chunk r allst (some b1) last sid = station_chunk r allst (some b2) last sid
    ∧ station_body allst (some b1) last sid = some (name ++ ": 🚫\n", last)
    ∧ station_body allst (some b2) last sid = some (name ++ ": 🚫\n", last) := by
  have e1 : station_body allst (some b1) last sid = some (name ++ ": 🚫\n", last) := by
    simp [station_body, hn, h1]
  have e2 : station_body allst (some b2) last sid = some (name ++ ": 🚫\n", last) := by
    simp [station_body, hn, h2]
  refine ⟨?_, e1, e2⟩
  simp only [station_chunk, e1, e2]

theorem claim8_absent_vs_empty_witness :
    station_chunk routeC2 allstC2 (some fun _ => none) none 1
      = station_chunk routeC2 allstC2 (some fun _ => some []) none 1
    ∧ station_body allstC2 (some fun _ => none) none 1 = some ("S1" ++ ": 🚫\n", none)
    ∧ station_body allstC2 (some fun _ => some []) none 1 = some ("S1" ++ ": 🚫\n", none) :=
  claim8_absent_vs_empty routeC2 allstC2 (fun _ => none) (fun _ => some []) none 1 "S1"
    rfl rfl rfl

/-- `sorted(list(set(xs)))` is strictly ascending (sorted and duplicate-free). -/
theorem sorted_set_sorted (xs : List Int) : (sorted_set xs).Sorted (· < ·) := by
  have hs : (sorted_set xs).Sorted (· ≤ ·) :=
    List.sorted_insertionSort (· ≤ ·) xs.dedup
  have hp : (List.insertionSort (· ≤ ·) xs.dedup).Perm xs.dedup :=
    List.perm_insertionSort (· ≤ ·) xs.dedup
  have hn : (sorted_set xs).Nodup := hp.symm.nodup (List.nodup_dedup xs)
  exact hs.lt_of_le hn

/-- Membership in `sorted(list(set(xs)))` is membership in `xs`. -/
theorem sorted_set_mem (a : Int) (xs : List Int) : a ∈ sorted_set xs ↔ a ∈ xs := by
  unfold sorted_set
  rw [(List.perm_insertionSort (· ≤ ·) xs.dedup).mem_iff]
  exact List.mem_dedup

/-- C1: ingesting one station/prediction message for route `r`, station `s`
and raw pairs `xs` stores exactly the ascending-sorted list of the distinct
ETA values of `xs` (board labels discarded), replacing whatever was stored for
`(r, s)` before (the prior state `st` is arbitrary), and a subsequent get
returns that list; in particular `[(5,A),(5,B),(3,C)]` yields `[3, 5]`, and
`[(1,x)]` followed by `[(9,y)]` yields `[9]`. -/
theorem claim1_station_update_sorted_dedup_replace :
    (∀ (st : BotState) (r : String) (s : Int) (xs : List (Int × String)),
      ∃ stn, on_mqtt st
          { topic := "state/station/1", payload := some (MqttData.station s [(r, xs)]) }
          = some stn
        ∧ ∃ l, predictions_get stn r s = some l
            ∧ l.Sorted (· < ·) ∧ ∀ a, a ∈ l ↔ a ∈ xs.map Prod.fst)
    ∧ ((on_mqtt emptyBot msgC1).bind fun s1 => predictions_get s1 "r" 10) = some [3, 5]
    ∧ ((on_mqtt emptyBot msgC1a).bind fun s1 =>
        (on_mqtt s1 msgC1b).bind fun s2 => predictions_get s2 "r" 10) = some [9] := by
  refine ⟨?_, by decide, by decide⟩
  intro st r s xs
  refine ⟨_, rfl, sorted_set (xs.map Prod.fst), ?_,
    sorted_set_sorted (xs.map Prod.fst), fun a => sorted_set_mem a (xs.map Prod.fst)⟩
  simp [on_mqtt, predictions_get, strContains, hasSub]

/-- The cutoff accumulated by the loader fold is the last changeover seen,
falling back to the initial value. -/
theorem load_foldl_cutoff (rows : List RouteRow) : ∀ (st : LoadState),
    (rows.foldl load_route_step st).cutoff_station_id =
      match lastChangeover st.last_segment rows with
      | some c => some c
      | none => st.cutoff_station_id := by
  induction rows with
  | nil => intro st; rfl
  | cons row rest ih =>
    intro st
    rw [List.foldl_cons, ih]
    by_cases hc : st.last_segment ≠ "" ∧ st.last_segment ≠ row.segment
    · cases hrec : lastChangeover row.segment rest <;>
        simp [lastChangeover, load_route_step, hc, hrec]
    · cases hrec : lastChangeover row.segment rest <;>
        simp [lastChangeover, load_route_step, hc, hrec]

/-- The segment labels accumulated by the loader fold: the labels of the
non-changeover rows, first occurrences only, appended to the initial list. -/
theorem load_foldl_segments (rows : List RouteRow) : ∀ (st : LoadState),
    (rows.foldl load_route_step st).segments =
      st.segments ++ newLabels st.segments (nonChangeoverLabels st.last_segment rows) := by
  induction rows with
  | nil => intro st; simp [newLabels, nonChangeoverLabels]
  | cons row rest ih =>
    intro st
    rw [List.foldl_cons, ih]
    by_cases hc : st.last_segment ≠ "" ∧ st.last_segment ≠ row.segment
    · simp [nonChangeoverLabels, load_route_step, hc]
    · by_cases hm : row.segment ∈ st.segments
      · simp [nonChangeoverLabels, newLabels, load_route_step, hc, hm]
      · simp [nonChangeoverLabels, newLabels, load_route_step, hc, hm]

/-- C6 counterexample: for rows with segment labels `A, B, B, C, C` the stored
segments list is `["A", "B", "C"]` — it grows past the first observed label
and the first differing label when a third segment's label repeats, contrary
to the claim. -/
theorem claim6_counterexample :
    (load_route (fun _ => none) "t" rows6).1.segments = ["A", "B", "C"]
    ∧ (load_route (fun _ => none) "t" rows6).1.segments ≠ ["A", "B"] :=
  ⟨by decide, by decide⟩

/-- C6 (amended): the loader records as cutoff the station id of the row at
each segment-label changeover, overwriting it to the newest changeover; the
stored segments list collects, in first-occurrence order, the labels of the
rows that are not changeover rows — so the list holds the first observed label
and the first differing label when each segment spans at least two rows, but a
later distinct label that repeats is still appended, and a single-row
segment's label is never appended. -/
theorem claim6_amended_loader_characterization :
    ∀ (all0 : Int → Option String) (name : String) (rows : List RouteRow),
      (load_route all0 name rows).1.cutoff_station_id = lastChangeover "" rows
      ∧ (load_route all0 name rows).1.segments
          = newLabels [] (nonChangeoverLabels "" rows) := by
  intro all0 name rows
  constructor
  · show (rows.foldl load_route_step _).cutoff_station_id = _
    rw [load_foldl_cutoff]
    cases hrec : lastChangeover "" rows <;> simp
  · show (rows.foldl load_route_step _).segments = _
    rw [load_foldl_segments]
    simp

/-- The between-stations condition holds exactly when the previous prognosis
is defined, non-zero and greater than the current one. -/
theorem betweenCond_iff (last : Option Int) (e : Int) :
    betweenCond last e = true ↔ ∃ p, last = some p ∧ p ≠ 0 ∧ e < p := by
  cases last <;> simp [betweenCond]

/-- C2: at a data-bearing station with smallest ETA `e` and heuristic memory
`last`, the at-station marker is rendered inline exactly when `e = 0` and
`last ≠ 0` (including `last` undefined); otherwise the between-stations marker
line is rendered immediately before the station's line exactly when `last` is
defined, non-zero and greater than `e`; otherwise the bare line is rendered;
in every case the memory becomes `e`.  For consecutive ETA lists `[0]`, `[0]`
only the first station gets the at-station marker, and `[0]` then `[2]`
produces no between-stations marker. -/
theorem claim2_bus_marker_heuristic :
    (∀ (allst : Int → Option String) (b : Int → Option (List Int)) (last : Option Int)
        (sid : Int) (name : String) (e : Int) (es : List Int),
      allst sid = some name → b sid = some (e :: es) →
      ((e = 0 ∧ last ≠ some 0 →
        station_body allst (some b) last sid
          = some (ICON_BUS ++ " " ++ name ++ ": "
              ++ String.intercalate ", " ((e :: es).map toString) ++ "\n", some e))
      ∧ (∀ p, ¬(e = 0 ∧ last ≠ some 0) → last = some p → p ≠ 0 → e < p →
        station_body allst (some b) last sid
          = some (ICON_BUS ++ " \n" ++ name ++ ": "
              ++ String.intercalate ", " ((e :: es).map toString) ++ "\n", some e))
      ∧ (¬(e = 0 ∧ last ≠ some 0) → ¬(∃ p, last = some p ∧ p ≠ 0 ∧ e < p) →
        station_body allst (some b) last sid
          = some (name ++ ": "
              ++ String.intercalate ", " ((e :: es).map toString) ++ "\n", some e))))
    ∧ form_digest_markdown stateC2A "r" = some "*Out*\n🚌 S1: 0\nS2: 0\n"
    ∧ form_digest_markdown stateC2B "r" = some "*Out*\n🚌 S1: 0\nS2: 2\n" := by
  refine ⟨?_, by decide, by decide⟩
  intro allst b last sid name e es hn hb
  refine ⟨?_, ?_, ?_⟩
  · intro hcond
    simp [station_body, hn, hb, hcond.1, hcond.2]
  · intro p hne hl hp hep
    subst hl
    have he : e ≠ 0 := fun h0 => hne ⟨h0, by simp [hp]⟩
    simp [station_body, hn, hb, he, betweenCond, hp, hep]
  · intro hne1 hne2
    cases hbc : betweenCond last e with
    | false => simp [station_body, hn, hb, hne1, hbc]
    | true => exact absurd ((betweenCond_iff last e).mp hbc) hne2

theorem claim2_bus_marker_heuristic_witness :
    station_body allstC2 (some bucketA) none 1
      = some (ICON_BUS ++ " " ++ "S1" ++ ": "
          ++ String.intercalate ", " (([0] : List Int).map toString) ++ "\n", some 0)
    ∧ station_body allstC2 (some bucketC3) (some 5) 2
      = some (ICON_BUS ++ " \n" ++ "S2" ++ ": "
          ++ String.intercalate ", " (([2] : List Int).map toString) ++ "\n", some 2)
    ∧ station_body allstC2 (some bucketB) (some 0) 2
      = some ("S2" ++ ": "
          ++ String.intercalate ", " (([2] : List Int).map toString) ++ "\n", some 2) :=
  ⟨(claim2_bus_marker_heuristic.1 allstC2 bucketA none 1 "S1" 0 [] rfl rfl).1
      ⟨rfl, by decide⟩,
   (claim2_bus_marker_heuristic.1 allstC2 bucketC3 (some 5) 2 "S2" 2 [] rfl rfl).2.1 5
      (by decide) rfl (by decide) (by decide),
   (claim2_bus_marker_heuristic.1 allstC2 bucketB (some 0) 2 "S2" 2 [] rfl rfl).2.2
      (by decide)
      (by rintro ⟨p, hp, hp0, _⟩; injection hp with h; exact hp0 h.symm)⟩

/-- The loader fold never removes a station-name entry. -/
theorem load_foldl_all_mono (rows : List RouteRow) : ∀ (st : LoadState) (x : Int),
    (st.all_stations x).isSome = true →
    ((rows.foldl load_route_step st).all_stations x).isSome = true := by
  induction rows with
  | nil => intro st x h; exact h
  | cons row rest ih =>
    intro st x h
    rw [List.foldl_cons]
    apply ih
    show ((if x = row.station_id then some row.station_name
      else st.all_stations x)).isSome = true
    split
    · rfl
    · exact h

/-- After the loader fold, every station id of the accumulated sequence has a
name entry. -/
theorem load_foldl_seq_names (rows : List RouteRow) : ∀ (st : LoadState),
    (∀ sid ∈ st.station_sequence, (st.all_stations sid).isSome = true) →
    ∀ sid ∈ (rows.foldl load_route_step st).station_sequence,
      ((rows.foldl load_route_step st).all_stations sid).isSome = true := by
  induction rows with
  | nil => intro st h; exact h
  | cons row rest ih =>
    intro st h
    rw [List.foldl_cons]
    apply ih
    intro sid hsid
    have hsid2 : sid ∈ st.station_sequence ∨ sid = row.station_id := by
      have hsid3 : sid ∈ st.station_sequence ++ [row.station_id] := hsid
      simpa using hsid3
    show ((if sid = row.station_id then some row.station_name
      else st.all_stations sid)).isSome = true
    rcases hsid2 with h1 | h2
    · split
      · rfl
      · exact h sid h1
    · rw [if_pos h2]; rfl

/-- `load_route` leaves every station of the built route with a name entry,
and preserves every pre-existing name entry. -/
theorem load_route_names (all0 : Int → Option String) (name : String)
    (rows : List RouteRow) :
    (∀ sid ∈ (load_route all0 name rows).1.station_sequence,
      ((load_route all0 name rows).2 sid).isSome = true)
    ∧ (∀ x, (all0 x).isSome = true →
      ((load_route all0 name rows).2 x).isSome = true) := by
  constructor
  · exact load_foldl_seq_names rows
      { segments := [], last_segment := "", cutoff_station_id := none
        station_sequence := [], all_stations := all0 }
      (by intro sid h; cases h)
  · intro x hx
    exact load_foldl_all_mono rows
      { segments := [], last_segment := "", cutoff_station_id := none
        station_sequence := [], all_stations := all0 } x hx

/-- The preload fold preserves the invariant that every station of every
loaded route has a name entry. -/
theorem preload_names_invariant (entries : List (String × List RouteRow)) :
    ∀ (st : BotState),
    (∀ name r, st.routes name = some r →
      ∀ sid ∈ r.station_sequence, (st.all_stations sid).isSome = true) →
    ∀ name r, (entries.foldl preload_step st).routes name = some r →
      ∀ sid ∈ r.station_sequence,
        ((entries.foldl preload_step st).all_stations sid).isSome = true := by
  induction entries with
  | nil => intro st h; exact h
  | cons entry rest ih =>
    intro st h
    rw [List.foldl_cons]
    apply ih
    intro name r hr sid hsid
    simp only [preload_step] at hr ⊢
    split at hr
    · cases hr
      exact (load_route_names st.all_stations entry.1 entry.2).1 sid hsid
    · exact (load_route_names st.all_stations entry.1 entry.2).2 sid
        (h name r hr sid hsid)

/-- C10: after the catalog loader processes the route files, every station id
appearing in any loaded route's station sequence has an entry in the global
station-id-to-name table, so the digest's station-name lookup succeeds for
every station of every catalog route. -/
theorem claim10_station_names_present (entries : List (String × List RouteRow))
    (name : String) (r : Route)
    (h : (preload_structures entries).routes name = some r) :
    ∀ sid ∈ r.station_sequence,
      ((preload_structures entries).all_stations sid).isSome = true :=
  preload_names_invariant entries emptyBot
    (by intro n rr hrr; cases hrr) name r h

theorem claim10_station_names_present_witness :
    ((preload_structures entries1).all_stations 1).isSome = true :=
  claim10_station_names_present entries1 "r1"
    { name := "r1", segments := ["A"], cutoff_station_id := none, station_sequence := [1] }
    (by decide) 1 (by decide)

/-- The digest loop splits over list concatenation. -/
theorem digest_loop_append (r : Route) (allst : Int → Option String)
    (bucket : Option (Int → Option (List Int))) (l1 l2 : List Int) :
    ∀ (acc : String) (last : Option Int),
    digest_loop r allst bucket (l1 ++ l2) acc last =
      (digest_loop r allst bucket l1 acc last).bind
        (fun s => digest_loop r allst bucket l2 s.1 s.2) := by
  induction l1 with
  | nil => intro acc last; rfl
  | cons sid rest ih =>
    intro acc last
    simp only [List.cons_append, digest_loop]
    cases h : station_chunk r allst bucket last sid <;> simp [h, ih]

/-- On a stretch that avoids the cutoff station, the digest loop emits no
header: it coincides with the plain walk. -/
theorem digest_loop_eq_plain (r : Route) (allst : Int → Option String)
    (bucket : Option (Int → Option (List Int))) :
    ∀ (l : List Int), (∀ sid ∈ l, r.cutoff_station_id ≠ some sid) →
    ∀ (acc : String) (last : Option Int),
    digest_loop r allst bucket l acc last = digest_plain allst bucket l acc last := by
  intro l
  induction l with
  | nil => intro _ acc last; rfl
  | cons sid rest ih =>
    intro hnc acc last
    have h1 : r.cutoff_station_id ≠ some sid := hnc sid (List.mem_cons_self sid rest)
    have hchunk : station_chunk r allst bucket last sid
        = station_body allst bucket last sid := by
      simp [station_chunk, h1]
    simp only [digest_loop, digest_plain, hchunk]
    cases h : station_body allst bucket last sid <;>
      simp [h, ih (fun s hs => hnc s (List.mem_cons_of_mem sid hs))]

/-- The accumulator factors out of the plain digest walk. -/
theorem digest_plain_acc (allst : Int → Option String)
    (bucket : Option (Int → Option (List Int))) :
    ∀ (l : List Int) (acc : String) (last : Option Int),
    digest_plain allst bucket l acc last =
      (digest_plain allst bucket l "" last).map (fun s => (acc ++ s.1, s.2)) := by
  intro l
  induction l with
  | nil => intro acc last; simp [digest_plain]
  | cons sid rest ih =>
    intro acc last
    simp only [digest_plain]
    cases h : station_body allst bucket last sid with
    | none => simp
    | some pl =>
      simp only []
      rw [ih (acc ++ pl.1), ih ("" ++ pl.1)]
      cases h2 : digest_plain allst bucket rest "" pl.2 <;>
        simp [String.empty_append, String.append_assoc]

/-- C3 counterexample: for the two-station route whose cutoff station also
triggers the between-stations marker, the digest contains the second header
followed by the marker line, so the header is not immediately followed by the
cutoff station's own line, contrary to the claim. -/
theorem claim3_counterexample :
    form_digest_markdown stateC3 "q" = some digestC3
    ∧ ¬ ∃ u w : String, digestC3 = u ++ "\n*B*\nS2: 2\n" ++ w := by
  constructor
  · decide
  · rintro ⟨u, w, h⟩
    have h2 := congrArg String.data h
    rw [String.data_append, String.data_append] at h2
    have h3 : ("\n*B*\nS2: 2\n".data) <:+: digestC3.data := ⟨u.data, w.data, h2.symm⟩
    exact absurd h3 (by decide)

/-- C3 (amended): for every catalog route whose segments list holds two labels
and whose cutoff station id occurs exactly once, strictly after the first
element, a successful render begins with the first segment's label as a header
and emits the second segment's label as a header exactly once, immediately
before the cutoff station's rendered block — that station's own line, preceded
by its between-stations marker line when the heuristic fires there. -/
theorem claim3_amended_second_header_once (st : BotState) (route : String) (r : Route)
    (sa sb : String) (cid : Int) (pre post : List Int) (D : String)
    (hroute : st.routes route = some r)
    (hsegs : r.segments = [sa, sb])
    (hcut : r.cutoff_station_id = some cid)
    (hseq : r.station_sequence = pre ++ cid :: post)
    (hpre : cid ∉ pre) (hpost : cid ∉ post) (hpre0 : pre ≠ [])
    (hD : form_digest_markdown st route = some D) :
    ∃ p lp v lv q lq,
      digest_plain st.all_stations (st.predictions route) pre "" none = some (p, lp)
      ∧ station_body st.all_stations (st.predictions route) lp cid = some (v, lv)
      ∧ digest_plain st.all_stations (st.predictions route) post "" lv = some (q, lq)
      ∧ D = "*" ++ sa ++ "*\n" ++ p ++ ("\n*" ++ sb ++ "*\n") ++ v ++ q := by
  unfold form_digest_markdown at hD
  split at hD
  · exact absurd hD (by simp)
  · rename_i r2 heq
    rw [hroute] at heq
    injection heq with heq2
    subst heq2
    split at hD
    · exact absurd hD (by simp)
    · rename_i s0 heq0
      rw [hsegs] at heq0
      simp only [List.getElem?_cons_zero] at heq0
      injection heq0 with heq1
      subst heq1
      rw [hseq, digest_loop_append] at hD
      have hprenc : ∀ sid ∈ pre, r.cutoff_station_id ≠ some sid := by
        intro s hs hcontra
        rw [hcut] at hcontra
        injection hcontra with hcs
        exact hpre (hcs ▸ hs)
      have hpostnc : ∀ sid ∈ post, r.cutoff_station_id ≠ some sid := by
        intro s hs hcontra
        rw [hcut] at hcontra
        injection hcontra with hcs
        exact hpost (hcs ▸ hs)
      rw [digest_loop_eq_plain r st.all_stations (st.predictions route) pre hprenc,
        digest_plain_acc] at hD
      cases hp : digest_plain st.all_stations (st.predictions route) pre "" none with
      | none => rw [hp] at hD; simp at hD
      | some s1 =>
        obtain ⟨p, lp⟩ := s1
        rw [hp] at hD
        have hchunk : station_chunk r st.all_stations (st.predictions route) lp cid
            = (station_body st.all_stations (st.predictions route) lp cid).map
                (fun pl => ("\n*" ++ sb ++ "*\n" ++ pl.1, pl.2)) := by
          simp [station_chunk, hcut, hsegs]
        simp only [Option.map_some', Option.some_bind, digest_loop, hchunk] at hD
        cases hv : station_body st.all_stations (st.predictions route) lp cid with
        | none => rw [hv] at hD; simp at hD
        | some pl =>
          obtain ⟨v, lv⟩ := pl
          rw [hv] at hD
          simp only [Option.map_some'] at hD
          rw [digest_loop_eq_plain r st.all_stations (st.predictions route) post hpostnc,
            digest_plain_acc] at hD
          cases hq : digest_plain st.all_stations (st.predictions route) post "" lv with
          | none => rw [hq] at hD; simp at hD
          | some s3 =>
            obtain ⟨q, lq⟩ := s3
            rw [hq] at hD
            simp only [Option.map_some'] at hD
            refine ⟨p, lp, v, lv, q, lq, rfl, hv, hq, ?_⟩
            have hDval := Option.some.inj hD
            rw [← hDval]
            simp [String.append_assoc]

theorem claim3_amended_second_header_once_witness :
    ∃ p lp v lv q lq,
      digest_plain stateC3.all_stations (stateC3.predictions "q") [1] "" none = some (p, lp)
      ∧ station_body stateC3.all_stations (stateC3.predictions "q") lp 2 = some (v, lv)
      ∧ digest_plain stateC3.all_stations (stateC3.predictions "q") [] "" lv = some (q, lq)
      ∧ digestC3 = "*" ++ "A" ++ "*\n" ++ p ++ ("\n*" ++ "B" ++ "*\n") ++ v ++ q :=
  claim3_amended_second_header_once stateC3 "q" routeC3 "A" "B" 2 [1] [] digestC3
    rfl rfl rfl rfl (by decide) (by decide) (by decide) (by decide)
